import Mathlib

/-! Verification of the BERT plugin common header.

A shallow embedding of the helper utilities in `plugin/common/bertCommon.h`
(mask-size lookup, element sizing, ceiling division and alignment, weight
conversion and copying, the cuBLAS configuration scope guard, and the plugin
field type mapping), together with theorems settling the specified properties.

Machine integers are modelled as `Nat` with explicit reduction modulo `2 ^ w`
where overflow matters.  External CUDA scalar-conversion intrinsics
(`__half2float`, `__float2half`) are not code of this repository; the
conversion routines are parametrised over them where their action on element
bit patterns is irrelevant to the property at hand.
-/

set_option autoImplicit false

namespace Bert

/-! Section: enumerations.

`nvinfer1::DataType` and `nvinfer1::PluginFieldType` are C++ enums backed by
`int32_t`; we model an enum value as the `Nat` code of its enumerator, so that
values outside the declared enumerators are representable, as they are in C++.
-/

namespace DataType

def kFLOAT : Nat := 0
def kHALF : Nat := 1
def kINT8 : Nat := 2
def kINT32 : Nat := 3
def kBOOL : Nat := 4
def kUINT8 : Nat := 5
def kFP8 : Nat := 6

end DataType

namespace PluginFieldType

def kFLOAT16 : Nat := 0
def kFLOAT32 : Nat := 1
def kFLOAT64 : Nat := 2
def kINT8 : Nat := 3
def kINT16 : Nat := 4
def kINT32 : Nat := 5
def kCHAR : Nat := 6
def kDIMS : Nat := 7
def kUNKNOWN : Nat := 8

end PluginFieldType

/-! Section: hardware generation and packed-mask constants, from the header. -/

def kSM_53 : Int := 53
def kSM_70 : Int := 70
def kSM_72 : Int := 72
def kSM_75 : Int := 75
def kSM_80 : Int := 80
def kSM_86 : Int := 86
def kSM_87 : Int := 87
def kSM_89 : Int := 89
def kSM_90 : Int := 90

-- The number of threads per CTA: warps_m * warps_n * warps_k * 32
def threadsPerCta128 : Nat := 2 * 2 * 32
def threadsPerCta384 : Nat := 1 * 8 * 32

-- The number of xmmas in the M dimension
def xmmasM128 : Nat := 4
def xmmasM384 : Nat := 24

-- Packed mask size per batch. Layout is XMMAS_M * THREADS_PER_CTA.
def unfusedMaskSize : Nat := 1
def packedMaskSize64 : Nat := xmmasM128 * threadsPerCta128
def packedMaskSize96 : Nat := xmmasM128 * threadsPerCta128
def packedMaskSize128 : Nat := xmmasM128 * threadsPerCta128
def packedMaskSize384 : Nat := xmmasM384 * threadsPerCta384

/-- Source function `getMHAMaskPackedSize(int smVersion, DataType dataType, int sequenceLength)`
from the header, translated branch for branch.  `smVersion` and
`sequenceLength` are C++ `int` values, modelled as `Int`; the data type is the
`Nat` code of a `DataType` value. -/
def getMHAMaskPackedSize (smVersion : Int) (dataType : Nat) (sequenceLength : Int) : Nat :=
  let packedSize := unfusedMaskSize
  let isSmOK : Bool := smVersion == kSM_75 || smVersion == kSM_80 || smVersion == kSM_86
    || smVersion == kSM_87 || smVersion == kSM_90
  let isPrecisionOK : Bool := dataType == DataType.kINT8 || dataType == DataType.kHALF
  if isSmOK && isPrecisionOK then
    if sequenceLength == 64 then packedMaskSize64
    else if sequenceLength == 96 then packedMaskSize96
    else if sequenceLength == 128 then packedMaskSize128
    else if sequenceLength == 384 then packedMaskSize384
    else packedSize
  else packedSize

/-- Source function `getElementSize(DataType t)` from the header: a switch over the
enumerators, falling through to `return 0` for any value outside them. -/
def getElementSize (t : Nat) : Nat :=
  if t = DataType.kINT32 then 4
  else if t = DataType.kFLOAT then 4
  else if t = DataType.kHALF then 2
  else if t = DataType.kBOOL then 1
  else if t = DataType.kUINT8 then 1
  else if t = DataType.kINT8 then 1
  else if t = DataType.kFP8 then 1
  else 0

/-- Source struct `nvinfer1::Weights`: a type tag, an element count and a buffer of values.
The `int64_t` count of a live buffer is non-negative, so it is modelled as a
`Nat`; the buffer is modelled as the list of element bit patterns (for the raw
byte variant, the list of bytes). -/
structure Weights where
  type : Nat
  count : Nat
  values : List Nat
deriving Repr, DecidableEq

/-- Source function `getWeightsSize(Weights const& w, DataType type) = w.count * getElementSize(type)`. -/
def getWeightsSize (w : Weights) (type : Nat) : Nat :=
  w.count * getElementSize type

/-- Source function `ceildiv(a, b) = (a + b - 1) / b`, instantiated at a `w`-bit unsigned
integer type: `a` and `b` are `w`-bit values (naturals below `2 ^ w`) and each
arithmetic operation reduces modulo `2 ^ w`; subtracting 1 from `x` wraps as
`(x + (2 ^ w - 1)) % 2 ^ w`. -/
def ceildiv (w a b : Nat) : Nat :=
  (((a + b) % 2 ^ w + (2 ^ w - 1)) % 2 ^ w) / b

/-- Source function `alignTo(a, b) = ceildiv(a, b) * b`, with the product again reduced
modulo `2 ^ w`. -/
def alignTo (w a b : Nat) : Nat :=
  (ceildiv w a b * b) % 2 ^ w

/-! Section: `WeightsWithOwnership`.

The struct extends `Weights` with ownership of the `values` buffer.  The model
adds a ghost field `allocBytes`, the byte size of the allocation currently
owned through `values` (0 for the null buffer), computed exactly where the
source allocates: `new float[n]` contributes `4 * n` bytes (`sizeof(float)` is
4), `new half[n]` contributes `2 * n` bytes (`sizeof(half)` is 2), and
`new char[n]` contributes `n` bytes.
-/

structure WeightsWithOwnership extends Weights where
  allocBytes : Nat
deriving Repr, DecidableEq

/-- The default constructor: `values = nullptr; count = 0;`.  The inherited
`type` field is left uninitialised by the C++ constructor and is modelled as 0;
both conversion operations overwrite it before it is read. -/
def freshWeights : WeightsWithOwnership :=
  { type := 0, count := 0, values := [], allocBytes := 0 }

/-- Outcome of `convertAndCopy(Weights const&, DataType)`. An assertion
failure (`PLUGIN_ASSERT`) aborts the process, while the unsupported-type
branch throws `std::runtime_error("Unsupported DataType specified for
plugin.")` to the caller; the two are distinct outcomes. -/
inductive ConvOutcome where
  | ok
  | unsupportedTypeError
  | assertFailure
deriving Repr, DecidableEq

/-- Source member `WeightsWithOwnership::convertAndCopy(Weights const& src, DataType type)`,
translated statement for statement.  `h2f` and `f2h` are the external CUDA
intrinsics `__half2float` and `__float2half` acting on element bit patterns;
they are parameters because they are not code of this repository.  The field
assignments `this->type = type; this->count = src.count;` happen first, before
the destination type is examined, exactly as in the source.  `std::copy_n` and
the conversion loops read exactly `src.count` elements.  In the
assertion-failure cases the freshly allocated destination buffer is never
written; its indeterminate contents are modelled as zeros (the process aborts,
so they are unobservable). -/
def WeightsWithOwnership.convertAndCopy (h2f f2h : Nat → Nat)
    (w : WeightsWithOwnership) (src : Weights) (type : Nat) :
    ConvOutcome × WeightsWithOwnership :=
  let w1 := { w with type := type, count := src.count }
  if type = DataType.kFLOAT then
    let w2 := { w1 with allocBytes := 4 * src.count }
    if src.type = DataType.kFLOAT then
      (.ok, { w2 with values := src.values.take src.count })
    else if src.type = DataType.kHALF then
      (.ok, { w2 with values := (src.values.take src.count).map h2f })
    else
      (.assertFailure, { w2 with values := List.replicate src.count 0 })
  else if type = DataType.kHALF then
    let w2 := { w1 with allocBytes := 2 * src.count }
    if src.type = DataType.kHALF then
      (.ok, { w2 with values := src.values.take src.count })
    else if src.type = DataType.kFLOAT then
      (.ok, { w2 with values := (src.values.take src.count).map f2h })
    else
      (.assertFailure, { w2 with values := List.replicate src.count 0 })
  else
    (.unsupportedTypeError, w1)

/-- Source member `WeightsWithOwnership::convertAndCopy(char const*& srcBuf, size_t count,
DataType type)`, the raw-byte variant.  The cursor `char const*& srcBuf` is
modelled as the list of bytes from the cursor position onward; the function
returns the updated object together with the advanced cursor.  It allocates
`nbBytes = getWeightsSize(*this, type)` bytes and copies that many bytes
verbatim from the cursor. -/
def WeightsWithOwnership.convertAndCopyRaw (w : WeightsWithOwnership)
    (srcBuf : List Nat) (count : Nat) (type : Nat) :
    WeightsWithOwnership × List Nat :=
  let w1 := { w with type := type, count := count }
  let nbBytes := getWeightsSize w1.toWeights type
  ({ w1 with values := srcBuf.take nbBytes, allocBytes := nbBytes },
   srcBuf.drop nbBytes)

/-- The size invariant of §3 of the specification: the type tag and the
element count match the underlying allocation, that is, `count *
getElementSize(type)` bytes are allocated at `values`. -/
def sizeInvariant (w : WeightsWithOwnership) : Prop :=
  w.allocBytes = w.count * getElementSize w.type

/-! Section: `CublasConfigHelper`. -/

def CUBLAS_POINTER_MODE_HOST : Nat := 0
def CUBLAS_TENSOR_OP_MATH : Nat := 1

/-- The configuration of a cuBLAS handle touched by `CublasConfigHelper`:
its pointer mode and its math mode. -/
structure CublasHandleState where
  pointerMode : Nat
  mathMode : Nat
deriving Repr, DecidableEq

/-- The data members `pm` and `mm` of a constructed `CublasConfigHelper`. -/
structure CublasConfigHelper where
  pm : Nat
  mm : Nat
deriving Repr, DecidableEq

/-- The constructor: `cublasGetPointerMode` and `cublasGetMathMode` record the
current modes into `pm` and `mm`, then `cublasSetPointerMode` and
`cublasSetMathMode` force `CUBLAS_POINTER_MODE_HOST` and
`CUBLAS_TENSOR_OP_MATH`. -/
def cublasConfigHelperCtor (s : CublasHandleState) :
    CublasConfigHelper × CublasHandleState :=
  (⟨s.pointerMode, s.mathMode⟩,
   { pointerMode := CUBLAS_POINTER_MODE_HOST, mathMode := CUBLAS_TENSOR_OP_MATH })

/-- The destructor: `cublasSetMathMode(cublas, mm)` then
`cublasSetPointerMode(cublas, pm)`, unconditionally. -/
def cublasConfigHelperDtor (g : CublasConfigHelper) (s : CublasHandleState) :
    CublasHandleState :=
  let s1 := { s with mathMode := g.mm }
  { s1 with pointerMode := g.pm }

/-- How a guarded scope exits: normally, or abnormally (an exception
propagating through it).  C++ runs the destructor of the guard on both
paths. -/
inductive ScopeExit where
  | normal
  | abnormal
deriving Repr, DecidableEq

/-- A scope guarded by a `CublasConfigHelper`: the guard is constructed on the
initial handle state, the body runs on the overridden state and may exit
normally or abnormally, and the destructor runs on whatever state the body
left, on either exit path. -/
def runWithCublasConfig (body : CublasHandleState → ScopeExit × CublasHandleState)
    (s : CublasHandleState) : ScopeExit × CublasHandleState :=
  let gs := cublasConfigHelperCtor s
  let bs := body gs.2
  (bs.1, cublasConfigHelperDtor gs.1 bs.2)

/-- Source function `fieldTypeToDataType(PluginFieldType ftype)`: a switch mapping the four
supported field types to data types; every other value reaches `default:` and
throws `std::invalid_argument`, modelled as `Except.error` carrying the
message. -/
def fieldTypeToDataType (ftype : Nat) : Except String Nat :=
  if ftype = PluginFieldType.kFLOAT32 then .ok DataType.kFLOAT
  else if ftype = PluginFieldType.kFLOAT16 then .ok DataType.kHALF
  else if ftype = PluginFieldType.kINT32 then .ok DataType.kINT32
  else if ftype = PluginFieldType.kINT8 then .ok DataType.kINT8
  else .error "No corresponding datatype for plugin field type"

/-! Section: theorems settling the claims. -/

/-- C1: `getMHAMaskPackedSize` is a total function (a Lean `def` defined for
every `(smVersion, dataType, sequenceLength)` input, never an error): it
returns the generation/length-specific packed constant
(`xmmasM128 * threadsPerCta128 = 512` for sequence lengths 64, 96 and 128, and
`xmmasM384 * threadsPerCta384 = 6144` for sequence length 384) when
`smVersion` is one of 75, 80, 86, 87, 90 and the data type is `kINT8` or
`kHALF`, and returns the unfused mask size 1 for every other combination of
generation, type and length. -/
theorem getMHAMaskPackedSize_table :
    xmmasM128 * threadsPerCta128 = 512 ∧ xmmasM384 * threadsPerCta384 = 6144 ∧
    ∀ (sm : Int) (dt : Nat) (sl : Int),
      getMHAMaskPackedSize sm dt sl =
        if (sm = 75 ∨ sm = 80 ∨ sm = 86 ∨ sm = 87 ∨ sm = 90)
            ∧ (dt = DataType.kINT8 ∨ dt = DataType.kHALF) then
          if sl = 64 ∨ sl = 96 ∨ sl = 128 then 512
          else if sl = 384 then 6144
          else 1
        else 1 := by
  refine ⟨by decide, by decide, fun sm dt sl => ?_⟩
  simp only [getMHAMaskPackedSize, kSM_75, kSM_80, kSM_86, kSM_87, kSM_90,
    DataType.kINT8, DataType.kHALF, packedMaskSize64, packedMaskSize96,
    packedMaskSize128, packedMaskSize384, unfusedMaskSize, xmmasM128,
    threadsPerCta128, xmmasM384, threadsPerCta384,
    Bool.and_eq_true, Bool.or_eq_true, beq_iff_eq]
  split_ifs <;> simp_all

/-- C2 counterexample: over a 32-bit unsigned instantiation the claimed bound
`ceildiv(a, b) * b >= a` fails for the positive representable inputs
`a = 2 ^ 32 - 1`, `b = 2`: the intermediate `a + b - 1` wraps to 0, so
`ceildiv` returns 0 and `alignTo` returns 0 < a. -/
theorem ceildiv_bounds_counterexample :
    0 < (2 ^ 32 - 1 : Nat) ∧ 0 < (2 : Nat) ∧ 2 ^ 32 - 1 < 2 ^ 32 ∧ 2 < 2 ^ 32 ∧
      alignTo 32 (2 ^ 32 - 1) 2 = 0 ∧ ¬ (2 ^ 32 - 1 ≤ alignTo 32 (2 ^ 32 - 1) 2) := by
  refine ⟨by norm_num, by norm_num, by norm_num, by norm_num, by decide, ?_⟩
  have h : alignTo 32 (2 ^ 32 - 1) 2 = 0 := by decide
  rw [h]
  norm_num

/-- C2 amended: for all positive `w`-bit values `a`, `b` such that
`a + b - 1` does not overflow the `w`-bit type (that is, `a + b ≤ 2 ^ w`),
`ceildiv(a, b) * b >= a` and `ceildiv(a, b) * b < a + b`, the products taken
as computed by `alignTo` in the `w`-bit type. -/
theorem ceildiv_alignTo_bounds (w a b : Nat) (ha : 0 < a) (hb : 0 < b)
    (hfit : a + b ≤ 2 ^ w) :
    a ≤ alignTo w a b ∧ alignTo w a b < a + b := by
  have h2 : 0 < 2 ^ w := Nat.pos_pow_of_pos w (by norm_num)
  have hsub : ((a + b) % 2 ^ w + (2 ^ w - 1)) % 2 ^ w = a + b - 1 := by
    rcases Nat.lt_or_ge (a + b) (2 ^ w) with hlt | hge
    · rw [Nat.mod_eq_of_lt hlt, Nat.mod_eq_sub_mod (by omega)]
      have h1 : a + b + (2 ^ w - 1) - 2 ^ w = a + b - 1 := by omega
      rw [h1, Nat.mod_eq_of_lt (by omega)]
    · have heq : a + b = 2 ^ w := le_antisymm hfit hge
      rw [heq, Nat.mod_self, Nat.zero_add, Nat.mod_eq_of_lt (by omega)]
  have hceil : ceildiv w a b = (a + b - 1) / b := by
    rw [ceildiv, hsub]
  have hdd := Nat.div_add_mod (a + b - 1) b
  have hmlt : (a + b - 1) % b < b := Nat.mod_lt _ hb
  obtain ⟨m, hm⟩ : ∃ m, b * ((a + b - 1) / b) = m := ⟨_, rfl⟩
  rw [hm] at hdd
  have hmul : (a + b - 1) / b * b = m := by rw [Nat.mul_comm, hm]
  have halign : alignTo w a b = m := by
    rw [alignTo, hceil, hmul, Nat.mod_eq_of_lt (by omega)]
  rw [halign]
  omega

/-- C2 amended, witness at `w = 32`, `a = 7`, `b = 3`. -/
theorem ceildiv_alignTo_bounds_witness :
    7 ≤ alignTo 32 7 3 ∧ alignTo 32 7 3 < 7 + 3 :=
  ceildiv_alignTo_bounds 32 7 3 (by norm_num) (by norm_num) (by norm_num)

/-- C3: after every conversion that completes successfully (the
typed-conversion variant returning `.ok`, or the raw-byte variant, which
always completes), `getWeightsSize` applied to the object with its stored type
equals its element count multiplied by the destination element size, and that
equals the byte size of the buffer allocated for `values`. -/
theorem convertAndCopy_byte_size (h2f f2h : Nat → Nat) (w : WeightsWithOwnership)
    (src : Weights) (type : Nat) (srcBuf : List Nat) (count : Nat) :
    (let t := WeightsWithOwnership.convertAndCopy h2f f2h w src type
     t.1 = .ok →
       getWeightsSize t.2.toWeights t.2.type = t.2.count * getElementSize t.2.type
       ∧ getWeightsSize t.2.toWeights t.2.type = t.2.allocBytes)
    ∧ (let r := WeightsWithOwnership.convertAndCopyRaw w srcBuf count type
       getWeightsSize r.1.toWeights r.1.type = r.1.count * getElementSize r.1.type
       ∧ getWeightsSize r.1.toWeights r.1.type = r.1.allocBytes) := by
  refine ⟨?_, ?_⟩ <;> dsimp only
  · intro hok
    unfold WeightsWithOwnership.convertAndCopy at hok ⊢
    split_ifs at hok ⊢ <;>
      simp_all [getWeightsSize, getElementSize, DataType.kFLOAT, DataType.kHALF,
        DataType.kINT32, DataType.kBOOL, Nat.mul_comm]
  · simp [WeightsWithOwnership.convertAndCopyRaw, getWeightsSize]

/-- C3 witness: the typed variant at a concrete successful conversion (one
float element converted to `kHALF`). -/
theorem convertAndCopy_byte_size_witness :
    (let t := WeightsWithOwnership.convertAndCopy id id freshWeights ⟨0, 1, [42]⟩ 1
     getWeightsSize t.2.toWeights t.2.type = t.2.count * getElementSize t.2.type
     ∧ getWeightsSize t.2.toWeights t.2.type = t.2.allocBytes) :=
  (convertAndCopy_byte_size id id freshWeights ⟨0, 1, [42]⟩ 1 [] 0).1 (by decide)

/-- C5: the raw-byte variant copies exactly `count * getElementSize(type)`
bytes from the cursor position verbatim into the freshly allocated buffer and
advances the cursor by exactly that number of bytes: on a cursor whose next
`count * getElementSize(type)` bytes are `data` (for instance, bytes
previously written there by serialization) followed by `rest`, it stores
exactly `data` and leaves the cursor at `rest`. -/
theorem convertAndCopyRaw_verbatim (w : WeightsWithOwnership) (data rest : List Nat)
    (count type : Nat) (hlen : data.length = count * getElementSize type) :
    let r := WeightsWithOwnership.convertAndCopyRaw w (data ++ rest) count type
    r.1.type = type ∧ r.1.count = count ∧ r.1.values = data
    ∧ r.1.allocBytes = count * getElementSize type ∧ r.2 = rest := by
  dsimp only
  unfold WeightsWithOwnership.convertAndCopyRaw
  dsimp only [getWeightsSize]
  rw [← hlen]
  exact ⟨rfl, rfl, List.take_left data rest, rfl, List.drop_left data rest⟩

/-- C5 witness: two `kINT8` elements `[7, 9]` deserialized from a cursor that
continues with `[3]`. -/
theorem convertAndCopyRaw_verbatim_witness :
    (let r := WeightsWithOwnership.convertAndCopyRaw freshWeights ([7, 9] ++ [3]) 2
        DataType.kINT8
     r.1.type = DataType.kINT8 ∧ r.1.count = 2 ∧ r.1.values = [7, 9]
     ∧ r.1.allocBytes = 2 * getElementSize DataType.kINT8 ∧ r.2 = [3]) :=
  convertAndCopyRaw_verbatim freshWeights [7, 9] [3] 2 DataType.kINT8 (by decide)

/-- C6: the typed-conversion variant reaches its throwing branch (a
`std::runtime_error` raised to the caller, a distinct outcome from the
process-aborting `PLUGIN_ASSERT` failure) exactly when the requested
destination type is neither `kFLOAT` nor `kHALF`, and in that case no result
buffer is produced: the owned buffer and its allocation size are unchanged. -/
theorem convertAndCopy_unsupported_iff (h2f f2h : Nat → Nat) (w : WeightsWithOwnership)
    (src : Weights) (type : Nat) :
    (let t := WeightsWithOwnership.convertAndCopy h2f f2h w src type
     (t.1 = .unsupportedTypeError ↔ type ≠ DataType.kFLOAT ∧ type ≠ DataType.kHALF)
     ∧ (t.1 = .unsupportedTypeError →
         t.2.values = w.values ∧ t.2.allocBytes = w.allocBytes)) := by
  dsimp only
  unfold WeightsWithOwnership.convertAndCopy
  split_ifs <;> simp_all

/-- C6 witness: requesting destination type `kINT32` throws and leaves the
owned buffer untouched. -/
theorem convertAndCopy_unsupported_iff_witness :
    (WeightsWithOwnership.convertAndCopy id id freshWeights ⟨0, 1, [42]⟩
        DataType.kINT32).2.values = freshWeights.values
    ∧ (WeightsWithOwnership.convertAndCopy id id freshWeights ⟨0, 1, [42]⟩
        DataType.kINT32).2.allocBytes = freshWeights.allocBytes :=
  (convertAndCopy_unsupported_iff id id freshWeights ⟨0, 1, [42]⟩ DataType.kINT32).2
    (by decide)

/-- C7: `fieldTypeToDataType` maps `kFLOAT32` to `kFLOAT`, `kFLOAT16` to
`kHALF`, `kINT32` to `kINT32` and `kINT8` to `kINT8`, and for every other
`PluginFieldType` value it raises a descriptive error to the caller instead of
returning a data type. -/
theorem fieldTypeToDataType_table :
    fieldTypeToDataType PluginFieldType.kFLOAT32 = .ok DataType.kFLOAT
    ∧ fieldTypeToDataType PluginFieldType.kFLOAT16 = .ok DataType.kHALF
    ∧ fieldTypeToDataType PluginFieldType.kINT32 = .ok DataType.kINT32
    ∧ fieldTypeToDataType PluginFieldType.kINT8 = .ok DataType.kINT8
    ∧ ∀ ftype : Nat, ftype ≠ PluginFieldType.kFLOAT32 → ftype ≠ PluginFieldType.kFLOAT16 →
        ftype ≠ PluginFieldType.kINT32 → ftype ≠ PluginFieldType.kINT8 →
        fieldTypeToDataType ftype
          = .error "No corresponding datatype for plugin field type" := by
  refine ⟨rfl, rfl, rfl, rfl, fun ftype h1 h2 h3 h4 => ?_⟩
  unfold fieldTypeToDataType
  split_ifs <;> simp_all

/-- C7 witness: `kUNKNOWN` (and any other unrecognized field type) is rejected
with the descriptive error. -/
theorem fieldTypeToDataType_table_witness :
    fieldTypeToDataType PluginFieldType.kUNKNOWN
      = .error "No corresponding datatype for plugin field type" :=
  fieldTypeToDataType_table.2.2.2.2 PluginFieldType.kUNKNOWN
    (by decide) (by decide) (by decide) (by decide)

/-- C8: `CublasConfigHelper` as a step sequence on the handle state:
construction records the current pointer mode and math mode and then sets
pointer mode to `CUBLAS_POINTER_MODE_HOST` and math mode to
`CUBLAS_TENSOR_OP_MATH`; destruction restores exactly the recorded modes on
every exit path of the guarded scope, normal or abnormal, so the handle
configuration after the lifetime of the guard equals the configuration before
construction, whatever the body did to the handle. -/
theorem cublasConfigHelper_restores
    (body : CublasHandleState → ScopeExit × CublasHandleState) (s : CublasHandleState) :
    (cublasConfigHelperCtor s).1 = ⟨s.pointerMode, s.mathMode⟩
    ∧ (cublasConfigHelperCtor s).2
        = ⟨CUBLAS_POINTER_MODE_HOST, CUBLAS_TENSOR_OP_MATH⟩
    ∧ (∀ g s2, cublasConfigHelperDtor g s2 = ⟨g.pm, g.mm⟩)
    ∧ (runWithCublasConfig body s).1 = (body (cublasConfigHelperCtor s).2).1
    ∧ (runWithCublasConfig body s).2.pointerMode = s.pointerMode
    ∧ (runWithCublasConfig body s).2.mathMode = s.mathMode := by
  refine ⟨rfl, rfl, fun g s2 => rfl, rfl, ?_, ?_⟩ <;>
    simp [runWithCublasConfig, cublasConfigHelperCtor, cublasConfigHelperDtor]

/-- C9 counterexample: the size invariant does not hold after the
typed-conversion variant raises its unsupported-type error.  Starting from a
fresh object (null buffer, 0 bytes allocated) and requesting destination type
`kINT32` for a one-element source, the call throws after having already set
`type = kINT32` and `count = 1`, so the invariant would require `1 *
getElementSize(kINT32) = 4` allocated bytes while none are allocated. -/
theorem sizeInvariant_violated_on_error :
    (WeightsWithOwnership.convertAndCopy id id freshWeights ⟨0, 1, [42]⟩
        DataType.kINT32).1 = .unsupportedTypeError
    ∧ ¬ sizeInvariant (WeightsWithOwnership.convertAndCopy id id freshWeights
        ⟨0, 1, [42]⟩ DataType.kINT32).2 := by
  refine ⟨by decide, fun h => ?_⟩
  rw [sizeInvariant] at h
  revert h
  decide

/-- C9 amended: the size invariant (allocation of `count * getElementSize
(type)` bytes at `values`) holds after every conversion operation that
completes and returns to the caller: after the typed-conversion variant
whenever it succeeds, and after the raw-byte variant always.  It can fail to
hold after the typed variant raises its unsupported-type error, because
`type` and `count` are updated before the destination type is checked while
no buffer is allocated. -/
theorem sizeInvariant_after_conversion (h2f f2h : Nat → Nat)
    (w : WeightsWithOwnership) (src : Weights) (type : Nat)
    (srcBuf : List Nat) (count : Nat) :
    ((WeightsWithOwnership.convertAndCopy h2f f2h w src type).1 = .ok →
      sizeInvariant (WeightsWithOwnership.convertAndCopy h2f f2h w src type).2)
    ∧ sizeInvariant (WeightsWithOwnership.convertAndCopyRaw w srcBuf count type).1 := by
  constructor
  · intro hok
    unfold WeightsWithOwnership.convertAndCopy at hok ⊢
    split_ifs at hok ⊢ <;>
      simp_all [sizeInvariant, getElementSize, DataType.kFLOAT, DataType.kHALF,
        DataType.kINT32, DataType.kBOOL, Nat.mul_comm]
  · simp [sizeInvariant, WeightsWithOwnership.convertAndCopyRaw, getWeightsSize]

/-- C9 amended, witness: a concrete successful typed conversion and a concrete
raw copy both establish the invariant. -/
theorem sizeInvariant_after_conversion_witness :
    sizeInvariant (WeightsWithOwnership.convertAndCopy id id freshWeights
        ⟨0, 1, [42]⟩ 1).2
    ∧ sizeInvariant (WeightsWithOwnership.convertAndCopyRaw freshWeights [7, 9, 3] 2
        DataType.kINT8).1 :=
  ⟨(sizeInvariant_after_conversion id id freshWeights ⟨0, 1, [42]⟩ 1 [] 0).1 (by decide),
   (sizeInvariant_after_conversion id id freshWeights ⟨0, 1, [42]⟩ DataType.kINT8
      [7, 9, 3] 2).2⟩

/-- C10: `getElementSize` is total (a Lean `def` with no error outcome): it
returns 4 for `kINT32` and `kFLOAT`, 2 for `kHALF`, 1 for `kBOOL`, `kUINT8`,
`kINT8` and `kFP8`, and 0 for every `DataType` value outside these
enumerators (codes above `kFP8`), so `getWeightsSize` yields 0 bytes for such
a type rather than failing. -/
theorem getElementSize_total :
    getElementSize DataType.kINT32 = 4 ∧ getElementSize DataType.kFLOAT = 4
    ∧ getElementSize DataType.kHALF = 2 ∧ getElementSize DataType.kBOOL = 1
    ∧ getElementSize DataType.kUINT8 = 1 ∧ getElementSize DataType.kINT8 = 1
    ∧ getElementSize DataType.kFP8 = 1
    ∧ (∀ t : Nat, DataType.kFP8 < t → getElementSize t = 0)
    ∧ (∀ (w : Weights) (t : Nat), DataType.kFP8 < t → getWeightsSize w t = 0) := by
  refine ⟨by decide, by decide, by decide, by decide, by decide, by decide, by decide,
    ?_, ?_⟩
  · intro t ht
    unfold getElementSize
    rw [DataType.kFP8] at ht
    split_ifs <;> simp_all [DataType.kINT32, DataType.kFLOAT, DataType.kHALF,
      DataType.kBOOL, DataType.kUINT8, DataType.kINT8, DataType.kFP8]
  · intro w t ht
    unfold getWeightsSize getElementSize
    rw [DataType.kFP8] at ht
    split_ifs <;> simp_all [DataType.kINT32, DataType.kFLOAT, DataType.kHALF,
      DataType.kBOOL, DataType.kUINT8, DataType.kINT8, DataType.kFP8]

/-- C10 witness: the first out-of-range code, 7, has element size 0 and gives
a zero weight byte size. -/
theorem getElementSize_total_witness :
    getElementSize 7 = 0 ∧ getWeightsSize ⟨7, 5, []⟩ 7 = 0 :=
  ⟨getElementSize_total.2.2.2.2.2.2.2.1 7 (by decide),
   getElementSize_total.2.2.2.2.2.2.2.2 ⟨7, 5, []⟩ 7 (by decide)⟩

end Bert
